import Mathlib

/-!
Verification of the serial-communication core of the sercalo filter
application (src/interface/communication.py).

The Python module has two pieces:

* `serial_ports` : platform-dependent enumeration of serial ports,
  probing each candidate by opening and closing it;
* `SerialCommunicator` : a worker object with slots `connect`,
  `send_command`, a blocking read loop `run`, and `disconnect`,
  publishing three Qt signals: `response_received` (strings, for lines
  beginning with `:ACK`), `error_received` (strings, for lines beginning
  with `:NACK` and for every transport fault message) and `port_closed`.

The embedding is a shallow one: the outside world (the pyserial library
and the device) is presented as explicit data.  Opening the port either
succeeds or raises a `serial.SerialException` with a message (the
documented failure mode of the `serial.Serial` constructor); a write
either succeeds or raises a `serial.SerialException`; each iteration of
the read loop either yields a decoded line, raises `TypeError` (the
effect, noted in the source, of the port being closed under a blocked
`readline`), or raises some other exception with a message.  Qt signal
emissions become elements of a result list of `Event`s, in emission
order.  Each slot also returns an `Option String` modelling an exception
escaping the slot to its caller: the translation of a `try/except`
places in that component exactly what the handlers of the source do not
catch.
-/

/-- The code points the Python `str.strip` method removes: exactly
those for which `str.isspace()` is true — the ASCII whitespace
characters 0x09 to 0x0D and 0x20, the separator controls 0x1C to 0x1F,
the next-line character 0x85, the no-break space 0xA0, the ogham space
mark 0x1680, the Unicode spaces 0x2000 to 0x200A, the line and
paragraph separators 0x2028 and 0x2029, the narrow no-break space
0x202F, the medium mathematical space 0x205F and the ideographic space
0x3000. -/
def pyWhitespace : List Nat :=
  [9, 10, 11, 12, 13, 28, 29, 30, 31, 32, 133, 160, 5760,
   8192, 8193, 8194, 8195, 8196, 8197, 8198, 8199, 8200, 8201, 8202,
   8232, 8233, 8239, 8287, 12288]

/-- Whether the Python `str.strip` method removes this character. -/
def isPySpace (c : Char) : Bool :=
  pyWhitespace.contains c.toNat

/-- The Python `str.strip()` method: drop leading and trailing whitespace. -/
def pythonStrip (s : String) : String :=
  String.mk (((s.data.dropWhile isPySpace).reverse.dropWhile isPySpace).reverse)

/-- The Python `str.startswith` method: `pyStartswith s p` is true when
`p` is a prefix of `s`. -/
def pyStartswith (s pre : String) : Bool :=
  pre.data.isPrefixOf s.data

/-- UTF-8 encoding of a single code point, as a list of byte values. -/
def utf8Bytes (c : Char) : List Nat :=
  let n := c.toNat
  if n < 128 then [n]
  else if n < 2048 then [192 + n / 64, 128 + n % 64]
  else if n < 65536 then [224 + n / 4096, 128 + (n / 64) % 64, 128 + n % 64]
  else [240 + n / 262144, 128 + (n / 4096) % 64, 128 + (n / 64) % 64, 128 + n % 64]

/-- The Python `str.encode` method with codec utf-8: the byte stream
encoding the string. -/
def utf8Encode (s : String) : List Nat :=
  (s.data.map utf8Bytes).flatten

/-- One Qt signal emission of `SerialCommunicator`.  `response_received`
and `error_received` carry a payload string; `port_closed` carries none. -/
inductive Event where
  | responseReceived (line : String)
  | errorReceived (line : String)
  | portClosed
deriving Repr, DecidableEq

/-- Tests whether an event is the `port_closed` signal. -/
def isPortClosed : Event → Bool
  | Event.portClosed => true
  | _ => false

/-- Outcome of the `serial.Serial(port, baudrate, timeout=1)` constructor
call in `connect`: success, or a `serial.SerialException` message. -/
inductive OpenResult where
  | ok
  | fail (msg : String)
deriving Repr, DecidableEq

/-- Outcome of the `serial_port.write(...)` call in `send_command`:
success, or a `serial.SerialException` message. -/
inductive WriteResult where
  | ok
  | fail (msg : String)
deriving Repr, DecidableEq

/-- One iteration of the environment under the read loop: the decoded
string produced by `readline().decode(utf-8)`, or a `TypeError` (raised
when the port is closed while `readline` is blocked), or any other
exception with its message. -/
inductive ReadOutcome where
  | line (s : String)
  | typeError
  | exn (msg : String)
deriving Repr, DecidableEq

/-- The state of an open `serial.Serial` handle: its `is_open` flag and
the byte stream written to the wire so far. -/
structure PortState where
  is_open : Bool
  written : List Nat
deriving Repr, DecidableEq

/-- The mutable attributes of a `SerialCommunicator`: `self.serial_port`
(None until a connect attempt succeeds) and `self._is_running`. -/
structure CommState where
  serial_port : Option PortState
  is_running : Bool
deriving Repr, DecidableEq

/-- The Python guard `self.serial_port and self.serial_port.is_open`. -/
def sessionOpen (st : CommState) : Bool :=
  match st.serial_port with
  | some p => p.is_open
  | none => false

namespace SerialCommunicator

/-- The body of one read-loop iteration on a decoded line `s`:
`line = ...strip()`; if the line is nonempty, emit `response_received`
when it starts with `:ACK`, else `error_received` when it starts with
`:NACK`, else nothing. -/
def processLine (s : String) : List Event :=
  let line := pythonStrip s
  if !line.data.isEmpty then
    if pyStartswith line (":ACK") then [Event.responseReceived line]
    else if pyStartswith line (":NACK") then [Event.errorReceived line]
    else []
  else []

/-- The read loop `run`.  The script lists the successive outcomes of
`readline().decode` while the loop condition still holds; the end of
the script models the loop condition `_is_running and serial_port and
serial_port.is_open` being observed false (after a `disconnect`).  The
first component lists the emitted signals, the second an exception
escaping `run` — `none` in every branch, since the `except TypeError`
and `except Exception` handlers cover every outcome.  After the loop,
by fall-through or by `break`, `port_closed` is emitted once. -/
def run : List ReadOutcome → List Event × Option String
  | [] => ([Event.portClosed], none)
  | ReadOutcome.line s :: rest =>
      let r := run rest
      (processLine s ++ r.1, r.2)
  | ReadOutcome.typeError :: _ => ([Event.portClosed], none)
  | ReadOutcome.exn m :: _ =>
      ([Event.errorReceived ("Erro de leitura: " ++ m), Event.portClosed], none)

/-- The `connect` slot.  On success it installs a fresh open handle,
sets the running flag, and executes `run` in place; on a
`serial.SerialException` it emits the failure message on
`error_received`.  Components: emitted signals, final state, escaped
exception. -/
def connect (portName : String) (openRes : OpenResult)
    (script : List ReadOutcome) (st : CommState) :
    List Event × CommState × Option String :=
  match openRes with
  | OpenResult.ok =>
      let st' : CommState := { serial_port := some { is_open := true, written := [] },
                               is_running := true }
      let r := run script
      (r.1, st', r.2)
  | OpenResult.fail e =>
      ([Event.errorReceived ("Falha ao abrir porta " ++ portName ++ ": " ++ e)],
       st, none)

/-- The `send_command` slot.  Guarded by
`self.serial_port and self.serial_port.is_open`; inside the guard the
command is wrapped as `:command\n`, encoded as UTF-8 and written; a
`serial.SerialException` from the write is reported on
`error_received`.  Components: emitted signals, final state, escaped
exception. -/
def send_command (command : String) (writeRes : WriteResult) (st : CommState) :
    List Event × CommState × Option String :=
  if sessionOpen st then
    match writeRes with
    | WriteResult.ok =>
        let full_command := ":" ++ command ++ "\n"
        let st' : CommState :=
          { st with serial_port :=
              match st.serial_port with
              | some p => some { p with written := p.written ++ utf8Encode full_command }
              | none => none }
        ([], st', none)
    | WriteResult.fail e =>
        ([Event.errorReceived ("Erro ao enviar comando: " ++ e)], st, none)
  else ([], st, none)

/-- The `disconnect` slot: clear the running flag and, when the port is
open, close it.  It emits no signal, so the first component is always
empty. -/
def disconnect (st : CommState) : List Event × CommState :=
  let st1 : CommState := { st with is_running := false }
  if sessionOpen st1 then
    (([] : List Event),
     { st1 with serial_port :=
         match st1.serial_port with
         | some p => some { p with is_open := false }
         | none => none })
  else (([] : List Event), st1)

/-- The state part of `disconnect`, for iteration statements. -/
def disconnectS (st : CommState) : CommState :=
  (disconnect st).2

end SerialCommunicator

/-- The host environment seen by `serial_ports`: the value of
`sys.platform`, the result of `glob.glob` on a pattern, and whether the
probe `serial.Serial(port); close()` succeeds for a given port. -/
structure Env where
  platform : String
  globMatches : String → List String
  probeOk : String → Bool

/-- Whether `sys.platform` matches one of the recognized families of
`serial_ports`. -/
def recognizedPlatform (p : String) : Bool :=
  pyStartswith p ("win") || pyStartswith p ("linux") ||
  pyStartswith p ("cygwin") || pyStartswith p ("darwin")

/-- The platform-specific candidate list of `serial_ports`:
`COM1 .. COM256` on windows, glob matches elsewhere. -/
def candidatePorts (env : Env) : Except String (List String) :=
  if pyStartswith env.platform ("win") then
    Except.ok ((List.range 256).map (fun i => "COM" ++ toString (i + 1)))
  else if pyStartswith env.platform ("linux") || pyStartswith env.platform ("cygwin") then
    Except.ok (env.globMatches ("/dev/tty[A-Za-z]*"))
  else if pyStartswith env.platform ("darwin") then
    Except.ok (env.globMatches ("/dev/tty.*"))
  else Except.error ("Unsupported platform")

/-- The `serial_ports` function: build the candidate list (raising
`EnvironmentError` on an unknown platform), then keep exactly the
candidates whose probe open succeeds. -/
def serial_ports (env : Env) : Except String (List String) :=
  match candidatePorts env with
  | Except.ok ports => Except.ok (ports.filter env.probeOk)
  | Except.error e => Except.error e

/-- Example state: a communicator with a fresh open port. -/
def stOpenEx : CommState :=
  { serial_port := some { is_open := true, written := [] }, is_running := true }

/-- Example state: a communicator that never connected. -/
def stIdleEx : CommState :=
  { serial_port := none, is_running := false }

/-- Example host: a linux platform with two candidate devices of which
only the first can be opened. -/
def envLinuxEx : Env :=
  { platform := "linux",
    globMatches := fun pat =>
      if pat == "/dev/tty[A-Za-z]*" then ["/dev/ttyUSB0", "/dev/ttyS0"] else [],
    probeOk := fun q => q == "/dev/ttyUSB0" }

/-- Example host: a platform outside the recognized families. -/
def envUnknownEx : Env :=
  { platform := "sunos5", globMatches := fun _ => [], probeOk := fun _ => false }

section Helpers

/-- A string with the prefix given by `:NACK` decomposes into those
five characters followed by a tail. -/
lemma data_of_nack (s : String) (h : pyStartswith s (":NACK") = true) :
    ∃ t, s.data = ':' :: 'N' :: 'A' :: 'C' :: 'K' :: t := by
  unfold pyStartswith at h
  rw [List.isPrefixOf_iff_prefix] at h
  obtain ⟨t, ht⟩ := h
  exact ⟨t, ht.symm⟩

/-- A string with the prefix given by `:ACK` decomposes into those four
characters followed by a tail. -/
lemma data_of_ack (s : String) (h : pyStartswith s (":ACK") = true) :
    ∃ t, s.data = ':' :: 'A' :: 'C' :: 'K' :: t := by
  unfold pyStartswith at h
  rw [List.isPrefixOf_iff_prefix] at h
  obtain ⟨t, ht⟩ := h
  exact ⟨t, ht.symm⟩

/-- A line with the `:NACK` prefix does not have the `:ACK` prefix. -/
lemma nack_imp_not_ack (s : String) (h : pyStartswith s (":NACK") = true) :
    pyStartswith s (":ACK") = false := by
  obtain ⟨t, ht⟩ := data_of_nack s h
  unfold pyStartswith
  rw [ht]
  rfl

/-- A line with the `:ACK` prefix is nonempty. -/
lemma ack_nonempty (s : String) (h : pyStartswith s (":ACK") = true) :
    s.data.isEmpty = false := by
  obtain ⟨t, ht⟩ := data_of_ack s h
  rw [ht]
  rfl

/-- A line with the `:NACK` prefix is nonempty. -/
lemma nack_nonempty (s : String) (h : pyStartswith s (":NACK") = true) :
    s.data.isEmpty = false := by
  obtain ⟨t, ht⟩ := data_of_nack s h
  rw [ht]
  rfl

/-- On a whitespace-clean line with the `:ACK` prefix, the loop body
emits exactly the success event carrying the line. -/
lemma processLine_ack (s : String) (hs : pythonStrip s = s)
    (h : pyStartswith s (":ACK") = true) :
    SerialCommunicator.processLine s = [Event.responseReceived s] := by
  simp [SerialCommunicator.processLine, hs, h, ack_nonempty s h]

/-- On a whitespace-clean line with the `:NACK` prefix, the loop body
emits exactly the failure event carrying the line. -/
lemma processLine_nack (s : String) (hs : pythonStrip s = s)
    (h : pyStartswith s (":NACK") = true) :
    SerialCommunicator.processLine s = [Event.errorReceived s] := by
  simp [SerialCommunicator.processLine, hs, h, nack_nonempty s h,
    nack_imp_not_ack s h]

/-- On a whitespace-clean line with neither prefix, the loop body emits
nothing. -/
lemma processLine_other (s : String) (hs : pythonStrip s = s)
    (h1 : pyStartswith s (":ACK") = false)
    (h2 : pyStartswith s (":NACK") = false) :
    SerialCommunicator.processLine s = [] := by
  simp only [SerialCommunicator.processLine, hs, h1, h2]
  cases s.data.isEmpty <;> rfl

/-- The loop body never emits the `port_closed` signal. -/
lemma processLine_no_portClosed (s : String) :
    (SerialCommunicator.processLine s).countP isPortClosed = 0 := by
  simp only [SerialCommunicator.processLine]
  split
  · split
    · simp [List.countP_cons, isPortClosed]
    · split
      · simp [List.countP_cons, isPortClosed]
      · rfl
  · rfl

/-- Each terminated run of the read loop emits `port_closed` exactly
once. -/
lemma run_portClosed_once (script : List ReadOutcome) :
    (SerialCommunicator.run script).1.countP isPortClosed = 1 := by
  induction script with
  | nil => rfl
  | cons hd rest ih =>
    cases hd with
    | line s =>
      show (SerialCommunicator.processLine s ++
        (SerialCommunicator.run rest).1).countP isPortClosed = 1
      rw [List.countP_append, processLine_no_portClosed, ih]
    | typeError => rfl
    | exn m => rfl

/-- The read loop lets no exception escape: every branch is covered by
a handler. -/
lemma run_no_exn (script : List ReadOutcome) :
    (SerialCommunicator.run script).2 = none := by
  induction script with
  | nil => rfl
  | cons hd rest ih =>
    cases hd with
    | line s =>
      show (SerialCommunicator.run rest).2 = none
      exact ih
    | typeError => rfl
    | exn m => rfl

/-- The `disconnect` slot emits no signal. -/
lemma disconnect_events (st : CommState) :
    (SerialCommunicator.disconnect st).1 = [] := by
  simp only [SerialCommunicator.disconnect]
  split <;> rfl

/-- After `disconnect` the running flag is cleared. -/
lemma disconnectS_running (st : CommState) :
    (SerialCommunicator.disconnectS st).is_running = false := by
  rcases st with ⟨sp, r⟩
  cases sp with
  | none =>
    simp [SerialCommunicator.disconnectS, SerialCommunicator.disconnect,
      sessionOpen]
  | some p =>
    cases hp : p.is_open <;>
      simp [SerialCommunicator.disconnectS, SerialCommunicator.disconnect,
        sessionOpen, hp]

/-- After `disconnect` the port is no longer open. -/
lemma disconnectS_closed (st : CommState) :
    sessionOpen (SerialCommunicator.disconnectS st) = false := by
  rcases st with ⟨sp, r⟩
  cases sp with
  | none =>
    simp [SerialCommunicator.disconnectS, SerialCommunicator.disconnect,
      sessionOpen]
  | some p =>
    cases hp : p.is_open <;>
      simp [SerialCommunicator.disconnectS, SerialCommunicator.disconnect,
        sessionOpen, hp]

/-- Two `disconnect` calls leave the state of one. -/
lemma disconnectS_idem (st : CommState) :
    SerialCommunicator.disconnectS (SerialCommunicator.disconnectS st)
      = SerialCommunicator.disconnectS st := by
  rcases st with ⟨sp, r⟩
  cases sp with
  | none =>
    simp [SerialCommunicator.disconnectS, SerialCommunicator.disconnect,
      sessionOpen]
  | some p =>
    cases hp : p.is_open <;>
      simp [SerialCommunicator.disconnectS, SerialCommunicator.disconnect,
        sessionOpen, hp]

end Helpers

/-- C1: for every inbound line (a whitespace-clean decoded line, as the
wire framing delivers it) beginning with `:ACK`, the read loop emits
exactly one success event carrying that exact line, and for every
inbound line beginning with `:NACK` it emits exactly one failure event
carrying that exact line, in both cases followed by exactly the events
of the remaining session. -/
theorem ack_nack_lines_emit_exactly_once (s : String) (rest : List ReadOutcome)
    (hs : pythonStrip s = s) :
    (pyStartswith s (":ACK") = true →
      (SerialCommunicator.run (ReadOutcome.line s :: rest)).1
        = Event.responseReceived s :: (SerialCommunicator.run rest).1) ∧
    (pyStartswith s (":NACK") = true →
      (SerialCommunicator.run (ReadOutcome.line s :: rest)).1
        = Event.errorReceived s :: (SerialCommunicator.run rest).1) := by
  constructor
  · intro h
    show SerialCommunicator.processLine s ++ (SerialCommunicator.run rest).1 = _
    rw [processLine_ack s hs h]
    rfl
  · intro h
    show SerialCommunicator.processLine s ++ (SerialCommunicator.run rest).1 = _
    rw [processLine_nack s hs h]
    rfl

/-- C1 witness: the scenario lines of the specification, evaluated. -/
theorem ack_nack_lines_emit_exactly_once_witness :
    (SerialCommunicator.run [ReadOutcome.line (":ACK:1550.000")]).1
      = [Event.responseReceived (":ACK:1550.000"), Event.portClosed] ∧
    (SerialCommunicator.run [ReadOutcome.line (":NACK:OUT_OF_RANGE")]).1
      = [Event.errorReceived (":NACK:OUT_OF_RANGE"), Event.portClosed] := by
  constructor
  · rw [(ack_nack_lines_emit_exactly_once (":ACK:1550.000") [] (by decide)).1
      (by decide)]
    rfl
  · rw [(ack_nack_lines_emit_exactly_once (":NACK:OUT_OF_RANGE") [] (by decide)).2
      (by decide)]
    rfl

/-- C4: a read that raises the port-closed-under-read exception
(`TypeError`) terminates the loop with no error event before the final
`port_closed`; a read that raises any other exception emits one
`ReadFailed` error event and terminates the loop. -/
theorem read_fault_terminates_loop (rest : List ReadOutcome) (m : String) :
    ((SerialCommunicator.run (ReadOutcome.typeError :: rest)).1
        = [Event.portClosed]) ∧
    ((SerialCommunicator.run (ReadOutcome.exn m :: rest)).1
        = [Event.errorReceived ("Erro de leitura: " ++ m), Event.portClosed]) :=
  ⟨rfl, rfl⟩

/-- C6: an inbound line (whitespace-clean, as framed) starting with
neither `:ACK` nor `:NACK` — the empty line included — contributes no
event to the read loop output. -/
theorem other_lines_emit_nothing (s : String) (rest : List ReadOutcome)
    (hs : pythonStrip s = s)
    (h1 : pyStartswith s (":ACK") = false)
    (h2 : pyStartswith s (":NACK") = false) :
    (SerialCommunicator.run (ReadOutcome.line s :: rest)).1
      = (SerialCommunicator.run rest).1 := by
  show SerialCommunicator.processLine s ++ (SerialCommunicator.run rest).1 = _
  rw [processLine_other s hs h1 h2]
  rfl

/-- C6 witness: an empty line and an unclassified line produce no
events besides the final `port_closed` of the session. -/
theorem other_lines_emit_nothing_witness :
    (SerialCommunicator.run [ReadOutcome.line ("")]).1 = [Event.portClosed] ∧
    (SerialCommunicator.run [ReadOutcome.line ("OK:1550")]).1
      = [Event.portClosed] := by
  constructor
  · rw [other_lines_emit_nothing ("") [] (by decide) (by decide) (by decide)]
    rfl
  · rw [other_lines_emit_nothing ("OK:1550") [] (by decide) (by decide)
      (by decide)]
    rfl

/-- C3: a session whose port open succeeded emits `port_closed` exactly
once over its lifetime, whatever the read script — ending by observed
disconnect, by the port-closed read exception, or by a read fault; the
read loop emits it exactly once on any termination, and neither
`send_command` nor `disconnect` ever emits it. -/
theorem port_closed_emitted_exactly_once (portName c : String)
    (script : List ReadOutcome) (st : CommState) (w : WriteResult) :
    ((SerialCommunicator.connect portName OpenResult.ok script st).1.countP
        isPortClosed = 1) ∧
    ((SerialCommunicator.run script).1.countP isPortClosed = 1) ∧
    ((SerialCommunicator.send_command c w st).1.countP isPortClosed = 0) ∧
    ((SerialCommunicator.disconnect st).1 = []) := by
  refine ⟨?_, run_portClosed_once script, ?_, ?_⟩
  · show (SerialCommunicator.run script).1.countP isPortClosed = 1
    exact run_portClosed_once script
  · unfold SerialCommunicator.send_command
    split
    · cases w with
      | ok => rfl
      | fail e => rfl
    · rfl
  · simp only [SerialCommunicator.disconnect]
    split <;> rfl

/-- C2: while the session is open, sending command `c` appends to the
wire exactly the UTF-8 encoding of `:` + `c` + newline, and emits no
event. -/
theorem send_writes_framed_utf8 (c : String) (st : CommState) (p : PortState)
    (hp : st.serial_port = some p) (ho : p.is_open = true) :
    ((SerialCommunicator.send_command c WriteResult.ok st).1 = []) ∧
    ((SerialCommunicator.send_command c WriteResult.ok st).2.1.serial_port
      = some { is_open := p.is_open,
               written := p.written ++ utf8Encode (":" ++ c ++ "\n") }) := by
  have hso : sessionOpen st = true := by
    unfold sessionOpen
    rw [hp]
    exact ho
  simp [SerialCommunicator.send_command, hso, hp]

/-- C2 witness: the scenario of the specification — `send("iden?")` on
an open session puts the seven bytes of `:iden?` + newline on the
wire. -/
theorem send_writes_framed_utf8_witness :
    (stOpenEx.serial_port = some { is_open := true, written := [] }) ∧
    ((SerialCommunicator.send_command ("iden?") WriteResult.ok
        stOpenEx).2.1.serial_port
      = some { is_open := true,
               written := [58, 105, 100, 101, 110, 63, 10] }) := by
  refine ⟨rfl, ?_⟩
  rw [(send_writes_framed_utf8 ("iden?") stOpenEx
      { is_open := true, written := [] } rfl rfl).2]
  decide

/-- C5: no slot lets an exception escape to its caller — the third
component of each result is `none` for every environment outcome — and
each fault (failed open, failed write, unexpected read fault) is
converted into an `error_received` notification event. -/
theorem faults_are_events_not_exceptions (portName e c m : String)
    (openRes : OpenResult) (w : WriteResult)
    (script rest : List ReadOutcome) (st : CommState) :
    ((SerialCommunicator.connect portName openRes script st).2.2 = none) ∧
    ((SerialCommunicator.send_command c w st).2.2 = none) ∧
    ((SerialCommunicator.run script).2 = none) ∧
    ((SerialCommunicator.connect portName (OpenResult.fail e) script st).1
      = [Event.errorReceived ("Falha ao abrir porta " ++ portName ++ ": " ++ e)]) ∧
    (sessionOpen st = true →
      (SerialCommunicator.send_command c (WriteResult.fail e) st).1
        = [Event.errorReceived ("Erro ao enviar comando: " ++ e)]) ∧
    ((SerialCommunicator.run (ReadOutcome.exn m :: rest)).1
      = [Event.errorReceived ("Erro de leitura: " ++ m), Event.portClosed]) := by
  refine ⟨?_, ?_, run_no_exn script, rfl, ?_, rfl⟩
  · cases openRes with
    | ok =>
      show (SerialCommunicator.run script).2 = none
      exact run_no_exn script
    | fail e2 => rfl
  · unfold SerialCommunicator.send_command
    split
    · cases w with
      | ok => rfl
      | fail e2 => rfl
    · rfl
  · intro hso
    simp [SerialCommunicator.send_command, hso]

/-- C5 witness: a failed write on an open session becomes a single
`error_received` event and no exception. -/
theorem faults_are_events_not_exceptions_witness :
    (sessionOpen stOpenEx = true) ∧
    ((SerialCommunicator.send_command ("sweep:C:1:2:1:100")
        (WriteResult.fail ("boom")) stOpenEx).1
      = [Event.errorReceived ("Erro ao enviar comando: boom")]) := by
  refine ⟨rfl, ?_⟩
  rw [(faults_are_events_not_exceptions ("COM4") ("boom") ("sweep:C:1:2:1:100")
      ("x") OpenResult.ok WriteResult.ok [] [] stOpenEx).2.2.2.2.1 rfl]
  rfl

/-- C7: `disconnect` emits no event at all (in particular no
`port_closed`), clears the running flag, leaves the port closed, and is
idempotent: any positive number of applications leaves the state of a
single application. -/
theorem disconnect_idempotent_and_silent (st : CommState) (n : Nat) :
    ((SerialCommunicator.disconnect st).1 = []) ∧
    ((SerialCommunicator.disconnectS st).is_running = false) ∧
    (sessionOpen (SerialCommunicator.disconnectS st) = false) ∧
    (SerialCommunicator.disconnectS^[n + 1] st
      = SerialCommunicator.disconnectS st) := by
  refine ⟨disconnect_events st, disconnectS_running st, disconnectS_closed st, ?_⟩
  induction n with
  | zero => rfl
  | succ k ih =>
    rw [Function.iterate_succ_apply', ih, disconnectS_idem]

/-- On every recognized platform the candidate list is produced rather
than an error. -/
lemma candidatePorts_ok (env : Env)
    (h : recognizedPlatform env.platform = true) :
    ∃ ports, candidatePorts env = Except.ok ports := by
  unfold recognizedPlatform at h
  unfold candidatePorts
  split_ifs with hw hl hd
  · exact ⟨_, rfl⟩
  · exact ⟨_, rfl⟩
  · exact ⟨_, rfl⟩
  · rw [Bool.not_eq_true] at hw hd hl
    rw [Bool.or_eq_false_iff] at hl
    rw [hw, hl.1, hl.2, hd] at h
    simp at h

/-- C8: every port in the result of `serial_ports` passed its probe
open — a candidate whose probe fails never appears — the enumeration
succeeds on every recognized platform, and on an unrecognized platform
it fails with the unsupported-platform error. -/
theorem serial_ports_probe_and_platform (env : Env) :
    (∀ l, serial_ports env = Except.ok l → ∀ q ∈ l, env.probeOk q = true) ∧
    (recognizedPlatform env.platform = true →
      ∃ l, serial_ports env = Except.ok l) ∧
    (recognizedPlatform env.platform = false →
      serial_ports env = Except.error ("Unsupported platform")) := by
  refine ⟨?_, ?_, ?_⟩
  · intro l hl q hq
    unfold serial_ports at hl
    cases hc : candidatePorts env with
    | ok ports =>
      rw [hc] at hl
      simp only [Except.ok.injEq] at hl
      rw [← hl] at hq
      exact (List.mem_filter.mp hq).2
    | error e =>
      rw [hc] at hl
      exact absurd hl (by simp)
  · intro h
    obtain ⟨ports, hc⟩ := candidatePorts_ok env h
    exact ⟨ports.filter env.probeOk, by simp [serial_ports, hc]⟩
  · intro h
    unfold recognizedPlatform at h
    rw [Bool.or_eq_false_iff, Bool.or_eq_false_iff, Bool.or_eq_false_iff] at h
    obtain ⟨⟨⟨h1, h2⟩, h3⟩, h4⟩ := h
    unfold serial_ports candidatePorts
    rw [h1, h2, h3, h4]
    rfl

/-- C8 witness: on the example linux host only the openable device is
returned, and on the unknown host the enumeration fails. -/
theorem serial_ports_probe_and_platform_witness :
    (recognizedPlatform envUnknownEx.platform = false) ∧
    (serial_ports envUnknownEx = Except.error ("Unsupported platform")) ∧
    (serial_ports envLinuxEx = Except.ok (["/dev/ttyUSB0"])) ∧
    (envLinuxEx.probeOk ("/dev/ttyUSB0") = true) := by
  refine ⟨by decide, (serial_ports_probe_and_platform envUnknownEx).2.2
    (by decide), by rfl, ?_⟩
  exact (serial_ports_probe_and_platform envLinuxEx).1 (["/dev/ttyUSB0"])
    (by rfl) ("/dev/ttyUSB0") (by simp)

/-- C9: sending while the session is not open (no handle, or handle not
open) is a silent no-op: no event, no write, no escaped exception, and
an unchanged state. -/
theorem send_before_open_is_noop (c : String) (w : WriteResult)
    (st : CommState) (h : sessionOpen st = false) :
    SerialCommunicator.send_command c w st = ([], st, none) := by
  simp [SerialCommunicator.send_command, h]

/-- C9 witness: sending on a never-connected communicator changes
nothing. -/
theorem send_before_open_is_noop_witness :
    (sessionOpen stIdleEx = false) ∧
    (SerialCommunicator.send_command ("iden?") WriteResult.ok stIdleEx
      = ([], stIdleEx, none)) :=
  ⟨rfl, send_before_open_is_noop ("iden?") WriteResult.ok stIdleEx rfl⟩

/-- C10: a failed open, a failed write, an unexpected read fault, and a
device `:NACK` line are all delivered as plain strings through the same
`error_received` constructor — the channel does not separate transport
errors from device rejections. -/
theorem transport_faults_share_nack_channel (portName e c m s : String)
    (script rest : List ReadOutcome) (st : CommState)
    (hs : pythonStrip s = s) (hn : pyStartswith s (":NACK") = true) :
    ((SerialCommunicator.connect portName (OpenResult.fail e) script st).1
      = [Event.errorReceived ("Falha ao abrir porta " ++ portName ++ ": " ++ e)]) ∧
    (sessionOpen st = true →
      (SerialCommunicator.send_command c (WriteResult.fail e) st).1
        = [Event.errorReceived ("Erro ao enviar comando: " ++ e)]) ∧
    ((SerialCommunicator.run (ReadOutcome.exn m :: rest)).1
      = [Event.errorReceived ("Erro de leitura: " ++ m), Event.portClosed]) ∧
    ((SerialCommunicator.run (ReadOutcome.line s :: rest)).1
      = Event.errorReceived s :: (SerialCommunicator.run rest).1) := by
  refine ⟨rfl, ?_, rfl, ?_⟩
  · intro hso
    simp [SerialCommunicator.send_command, hso]
  · show SerialCommunicator.processLine s ++ _ = _
    rw [processLine_nack s hs hn]
    rfl

/-- C10 witness: a device rejection line and a write fault arrive as the
same kind of event. -/
theorem transport_faults_share_nack_channel_witness :
    (pythonStrip (":NACK:ERR") = (":NACK:ERR")) ∧
    ((SerialCommunicator.run [ReadOutcome.line (":NACK:ERR")]).1
      = [Event.errorReceived (":NACK:ERR"), Event.portClosed]) ∧
    ((SerialCommunicator.send_command ("get-wl?C") (WriteResult.fail ("oops"))
        stOpenEx).1
      = [Event.errorReceived ("Erro ao enviar comando: oops")]) := by
  refine ⟨by decide, ?_, ?_⟩
  · rw [(transport_faults_share_nack_channel ("COM3") ("busy") ("get-wl?C")
      ("disco") (":NACK:ERR") [] [] stOpenEx (by decide) (by decide)).2.2.2]
    rfl
  · rw [(transport_faults_share_nack_channel ("COM3") ("oops") ("get-wl?C")
      ("disco") (":NACK:ERR") [] [] stOpenEx (by decide) (by decide)).2.1 rfl]
    rfl
